import Mathlib

/-!
Shallow embedding of the LoginShoker authentication backend
(`src/utils/authUtils.js`, `src/models/UserModel.js`, `src/models/SessionModel.js`,
`src/models/RoleModel.js`, `src/services/AuthService.js`,
`src/middleware/authMiddleware.js`) together with proofs of the
session/token lifecycle properties.

Conventions of the embedding:
* timestamps are `Nat` (milliseconds since epoch, as JavaScript `Date.getTime()`);
* refresh tokens are `Nat`: `crypto.randomBytes(64).toString('hex')` is modelled
  by a freshness counter `nextToken` carried in the database state — the only
  property the code relies on is that a newly generated token differs from every
  token ever stored, which the counter provides;
* bcrypt hashing is modelled by an injective tagging function: `verifyPassword`
  succeeds exactly on the hashed plaintext, matching the bcrypt contract;
* the Supabase/Postgres store is a record of lists of rows; `.eq` filters,
  `.single()`, unique constraints and foreign keys are embedded explicitly;
* stateful operations take the database (and, where the source reads the clock,
  an explicit `now`) and return their result paired with the updated database.
-/

/-- Database error surfaced by the Supabase client (e.g. `PGRST116` for
"no row found by `.single()`", `42703` for "undefined column",
`23503` for a foreign-key violation, `23505` for a unique violation). -/
structure DbError where
  code : String
  deriving Repr, DecidableEq

/-- Business and infrastructure error codes thrown by the services
(`throw new Error('...')` in the source). -/
inductive AuthErr where
  | EMAIL_INVALID
  | PASSWORD_WEAK (details : List String)
  | EMAIL_ALREADY_EXISTS
  | INVALID_CREDENTIALS
  | ACCOUNT_DISABLED
  | ACCOUNT_LOCKED
  | INVALID_REFRESH_TOKEN
  | SESSION_EXPIRED
  | ROLE_ALREADY_ASSIGNED
  | ROLE_HAS_USERS
  | dbError (e : DbError)
  deriving Repr, DecidableEq

namespace AuthUtils

/-- `AuthUtils.hashPassword`: bcrypt with work factor 12, modelled as an
injective tag on the plaintext (the only property the services use is the
`verifyPassword` round-trip below). -/
def hashPassword (password : String) : String :=
  "$2a$12$" ++ password

/-- `AuthUtils.verifyPassword`: `bcrypt.compare(password, hash)`. -/
def verifyPassword (password hash : String) : Bool :=
  hash == hashPassword password

/-- The characters a JavaScript char class `[^\s@]` rejects: whitespace or `@`. -/
def isWsOrAt (c : Char) : Bool :=
  c.isWhitespace || c == '@'

/-- `AuthUtils.isValidEmail`: the regex `/^[^\s@]+@[^\s@]+\.[^\s@]+$/`.
The string matches iff it splits as `local@rest` where `local` is nonempty
without whitespace or `@`, `rest` is nonempty without whitespace or `@`
(so the `@` is unique), and `rest` contains a dot that is neither its first
nor its last character. -/
def isValidEmail (email : String) : Bool :=
  match email.toList.splitOn '@' with
  | [localPart, rest] =>
    !localPart.isEmpty && localPart.all (fun c => !c.isWhitespace) &&
    !rest.isEmpty && rest.all (fun c => !c.isWhitespace) &&
    ((rest.drop 1).dropLast.contains '.')
  | _ => false

/-- Result record of `AuthUtils.validatePassword`. -/
structure PasswordValidation where
  isValid : Bool
  errors : List String
  deriving Repr, DecidableEq

/-- The fixed special-character set of the regex `[!@#$%^&*(),.?":{}|<>]`. -/
def specialChars : List Char :=
  ['!', '@', '#', '$', '%', '^', '&', '*', '(', ')', ',', '.', '?', '"',
   ':', Char.ofNat 123, Char.ofNat 125, '|', '<', '>']

/-- Error message for a too-short password. -/
def msgMinLength : String := "Debe tener al menos 8 caracteres"

/-- Error message for a password with no uppercase letter. -/
def msgUpper : String := "Debe tener al menos una letra mayuscula"

/-- Error message for a password with no lowercase letter. -/
def msgLower : String := "Debe tener al menos una letra minuscula"

/-- Error message for a password with no digit. -/
def msgDigit : String := "Debe tener al menos un numero"

/-- Error message for a password with no special character. -/
def msgSpecial : String := "Debe tener al menos un caracter especial"

/-- `AuthUtils.validatePassword`: min length 8, `[A-Z]`, `[a-z]`, `\d`,
and one of the fixed special characters; pushes one error message per
violated rule, in source order. -/
def validatePassword (password : String) : PasswordValidation :=
  let minLength := 8
  let hasUpperCase := password.toList.any (fun c => 'A' ≤ c && c ≤ 'Z')
  let hasLowerCase := password.toList.any (fun c => 'a' ≤ c && c ≤ 'z')
  let hasNumbers := password.toList.any (fun c => '0' ≤ c && c ≤ '9')
  let hasSpecialChar := password.toList.any (fun c => specialChars.contains c)
  let errors :=
    (if password.length < minLength then [msgMinLength] else []) ++
    (if !hasUpperCase then [msgUpper] else []) ++
    (if !hasLowerCase then [msgLower] else []) ++
    (if !hasNumbers then [msgDigit] else []) ++
    (if !hasSpecialChar then [msgSpecial] else [])
  { isValid := errors.isEmpty, errors := errors }

/-- `AuthUtils.getExpirationDate` with the default `'7d'` duration used by the
session flows: now plus seven days, in milliseconds. -/
def refreshTokenTTLms : Nat := 7 * 24 * 60 * 60 * 1000

/-- Absolute expiry computed from `now` with the default refresh-token TTL. -/
def getExpirationDate (now : Nat) : Nat := now + refreshTokenTTLms

end AuthUtils

/-- Row of the `usuarios` table. -/
structure Usuario where
  id_usuario : Nat
  email : String
  password_hash : String
  nombre : Option String
  activo : Bool
  bloqueado : Bool
  intentos_fallidos : Nat
  fecha_bloqueo : Option Nat
  fecha_creacion : Nat
  deriving Repr, DecidableEq

/-- Row of the `roles` table. -/
structure Rol where
  id_rol : Nat
  nombre : String
  descripcion : Option String
  deriving Repr, DecidableEq

/-- Row of the `usuario_roles` junction table (columns `usuario_id`, `rol_id`
per the schema in `SETUP.md`/`README.md`, matching `UserModel.assignRole`). -/
structure UserRole where
  usuario_id : Nat
  rol_id : Nat
  deriving Repr, DecidableEq

/-- Row of the `sesiones` table. -/
structure Sesion where
  id_sesion : Nat
  usuario_id : Nat
  refresh_token : Nat
  user_agent : String
  ip : String
  fecha_creacion : Nat
  fecha_expiracion : Nat
  activo : Bool
  deriving Repr, DecidableEq

/-- The persisted state: the four relations plus freshness counters for
generated ids and refresh tokens (serial primary keys; `crypto.randomBytes`). -/
structure DB where
  usuarios : List Usuario
  roles : List Rol
  usuario_roles : List UserRole
  sesiones : List Sesion
  nextUserId : Nat
  nextSessionId : Nat
  nextToken : Nat
  deriving Repr, DecidableEq

/-- JavaScript `string.includes(sub)`. -/
def strIncludes (s sub : String) : Bool :=
  decide (sub.toList <:+: s.toList)

/-- JavaScript `string.toLowerCase()` on the ASCII data this code lowers
(emails, role names).  Extensionally `String.toLower`, written over the
character list so that concrete instances evaluate. -/
def jsToLower (s : String) : String := ⟨s.data.map Char.toLower⟩

namespace AuthUtils

/-- `AuthUtils.parseUserAgent`: coarse device/browser label. -/
def parseUserAgent (userAgent : Option String) : String :=
  match userAgent with
  | none => "Desconocido"
  | some ua =>
    if strIncludes ua "Chrome" then "Chrome"
    else if strIncludes ua "Firefox" then "Firefox"
    else if strIncludes ua "Safari" then "Safari"
    else if strIncludes ua "Edge" then "Edge"
    else if strIncludes ua "Mobile" then "Movil"
    else if strIncludes ua "iPhone" then "iPhone"
    else if strIncludes ua "Android" then "Android"
    else "Navegador"

end AuthUtils

namespace SessionModel

/-- `SessionModel.createSession`: inserts a fresh session row (fresh refresh
token, absolute expiry `now + 7d`, normalized user agent, `activo = true`). -/
def createSession (db : DB) (now : Nat) (userId : Nat)
    (userAgent : Option String) (ip : String) : Sesion × DB :=
  let s : Sesion :=
    { id_sesion := db.nextSessionId
      usuario_id := userId
      refresh_token := db.nextToken
      user_agent := AuthUtils.parseUserAgent userAgent
      ip := ip
      fecha_creacion := now
      fecha_expiracion := AuthUtils.getExpirationDate now
      activo := true }
  (s, { db with
          sesiones := db.sesiones ++ [s]
          nextSessionId := db.nextSessionId + 1
          nextToken := db.nextToken + 1 })

/-- `SessionModel.findByRefreshToken`: `.eq('refresh_token', t).eq('activo', true)`,
`PGRST116` (no row) surfaced as `none`. -/
def findByRefreshToken (db : DB) (refreshToken : Nat) : Option Sesion :=
  db.sesiones.find? (fun s => s.refresh_token == refreshToken && s.activo)

/-- `SessionModel.invalidateSession`: `update({activo: false}).eq('id_sesion', id)`,
optionally further scoped by `usuario_id`. -/
def invalidateSession (db : DB) (sessionId : Nat) (userId : Option Nat) : DB :=
  { db with
      sesiones := db.sesiones.map (fun s =>
        if s.id_sesion == sessionId &&
           (match userId with | none => true | some uid => s.usuario_id == uid) then
          { s with activo := false }
        else s) }

/-- `SessionModel.invalidateAllUserSessions`: deactivates the user's active
sessions (optionally sparing one id) and returns the number of affected rows. -/
def invalidateAllUserSessions (db : DB) (userId : Nat)
    (exceptSessionId : Option Nat) : Nat × DB :=
  let hits := fun (s : Sesion) =>
    s.usuario_id == userId && s.activo &&
    (match exceptSessionId with | none => true | some e => !(s.id_sesion == e))
  ((db.sesiones.filter hits).length,
   { db with sesiones := db.sesiones.map (fun s =>
       if hits s then { s with activo := false } else s) })

/-- `SessionModel.invalidateByRefreshToken`:
`update({activo: false}).eq('refresh_token', t)` (no `activo` filter). -/
def invalidateByRefreshToken (db : DB) (refreshToken : Nat) : DB :=
  { db with sesiones := db.sesiones.map (fun s =>
      if s.refresh_token == refreshToken then { s with activo := false } else s) }

/-- `SessionModel.isValidSession`: looks the session up (active rows only),
deactivates it when past expiry (`now > fecha_expiracion`) or when the owning
user is inactive or locked, and returns the validity verdict together with the
possibly updated store.  A missing joined user would raise inside the `try`
and be caught, returning `false` with no write. -/
def isValidSession (db : DB) (now : Nat) (refreshToken : Nat) : Bool × DB :=
  match findByRefreshToken db refreshToken with
  | none => (false, db)
  | some session =>
    if now > session.fecha_expiracion then
      (false, invalidateSession db session.id_sesion none)
    else
      match db.usuarios.find? (fun u => u.id_usuario == session.usuario_id) with
      | none => (false, db)
      | some u =>
        if !u.activo || u.bloqueado then
          (false, invalidateSession db session.id_sesion none)
        else (true, db)

/-- `SessionModel.updateLastActivity`: best-effort bump of `fecha_creacion`
(reused as last-activity) on the active session holding the token. -/
def updateLastActivity (db : DB) (now : Nat) (refreshToken : Nat) : Bool × DB :=
  (true,
   { db with sesiones := db.sesiones.map (fun s =>
       if s.refresh_token == refreshToken && s.activo then
         { s with fecha_creacion := now }
       else s) })

/-- `SessionModel.cleanExpiredSessions`:
`update({activo:false}).lt('fecha_expiracion', now).eq('activo', true)`,
returning the number of rows deactivated. -/
def cleanExpiredSessions (db : DB) (now : Nat) : Nat × DB :=
  let hits := fun (s : Sesion) => s.fecha_expiracion < now && s.activo
  ((db.sesiones.filter hits).length,
   { db with sesiones := db.sesiones.map (fun s =>
       if hits s then { s with activo := false } else s) })

/-- `SessionModel.renewSession`: replaces the refresh token and extends the
expiry of the active session holding `refreshToken`
(`update(...).eq('refresh_token', t).eq('activo', true).select().single()`);
`.single()` reports `PGRST116` when no row matches.  The refresh token is
unique across rows, so at most one row matches. -/
def renewSession (db : DB) (now : Nat) (refreshToken : Nat) :
    Except DbError (Sesion × DB) :=
  let newRefreshToken := db.nextToken
  let newExpirationDate := AuthUtils.getExpirationDate now
  match db.sesiones.find? (fun s => s.refresh_token == refreshToken && s.activo) with
  | none => .error ⟨"PGRST116"⟩
  | some s =>
    let s' := { s with
                  refresh_token := newRefreshToken
                  fecha_expiracion := newExpirationDate
                  fecha_creacion := now }
    .ok (s',
      { db with
          sesiones := db.sesiones.map (fun r =>
            if r.refresh_token == refreshToken && r.activo then
              { r with
                  refresh_token := newRefreshToken
                  fecha_expiracion := newExpirationDate
                  fecha_creacion := now }
            else r)
          nextToken := db.nextToken + 1 })

end SessionModel

/-- A JavaScript value arriving in an update payload (`req.body` field). -/
inductive JsField where
  | vStr (s : String)
  | vBool (b : Bool)
  | vNat (n : Nat)
  | vNull
  deriving Repr, DecidableEq

namespace UserModel

/-- `UserModel.createUser`: hashes the password, inserts the row with the given
flags and `intentos_fallidos = 0`; the unique-email constraint (`23505`) is
reported as `EMAIL_ALREADY_EXISTS`.  Emails are stored lowercased. -/
def createUser (db : DB) (now : Nat) (email password : String)
    (nombre : Option String) (activo bloqueado : Bool) :
    Except AuthErr (Usuario × DB) :=
  if db.usuarios.any (fun u => u.email == jsToLower email) then
    .error .EMAIL_ALREADY_EXISTS
  else
    let user : Usuario :=
      { id_usuario := db.nextUserId
        email := jsToLower email
        password_hash := AuthUtils.hashPassword password
        nombre := nombre
        activo := activo
        bloqueado := bloqueado
        intentos_fallidos := 0
        fecha_bloqueo := none
        fecha_creacion := now }
    .ok (user, { db with
                   usuarios := db.usuarios ++ [user]
                   nextUserId := db.nextUserId + 1 })

/-- `UserModel.findByEmail`: case-insensitive lookup
(`.eq('email', email.toLowerCase()).single()`, `PGRST116` as `none`). -/
def findByEmail (db : DB) (email : String) : Option Usuario :=
  db.usuarios.find? (fun u => u.email == jsToLower email)

/-- `UserModel.findById`. -/
def findById (db : DB) (userId : Nat) : Option Usuario :=
  db.usuarios.find? (fun u => u.id_usuario == userId)

/-- `UserModel.findWithRoles`: the user joined with the role rows reachable
through `usuario_roles`. -/
def findWithRoles (db : DB) (userId : Nat) : Option (Usuario × List Rol) :=
  (db.usuarios.find? (fun u => u.id_usuario == userId)).map (fun u =>
    (u, (db.usuario_roles.filter (fun ur => ur.usuario_id == userId)).filterMap
          (fun ur => db.roles.find? (fun r => r.id_rol == ur.rol_id))))

/-- The mutable-field allow list of `UserModel.updateUser`, exactly as in the
source. -/
def allowedFields : List String :=
  ["nombre", "activo", "bloqueado", "intentos_fallidos", "fecha_bloqueo"]

/-- Assignment of one payload column to a user row, as the database `update`
would perform it (a value of the wrong type for the column would be a
database-side error; such payloads assign nothing here). -/
def applyField (u : Usuario) : String × JsField → Usuario
  | ("nombre", .vStr s) => { u with nombre := some s }
  | ("nombre", .vNull) => { u with nombre := none }
  | ("activo", .vBool b) => { u with activo := b }
  | ("bloqueado", .vBool b) => { u with bloqueado := b }
  | ("intentos_fallidos", .vNat n) => { u with intentos_fallidos := n }
  | ("fecha_bloqueo", .vNat n) => { u with fecha_bloqueo := some n }
  | ("fecha_bloqueo", .vNull) => { u with fecha_bloqueo := none }
  | ("email", .vStr s) => { u with email := s }
  | ("password_hash", .vStr s) => { u with password_hash := s }
  | _ => u

/-- `UserModel.updateUser`: keeps only the allow-listed keys of the payload
(`Object.keys(updateData).forEach` filter) and applies them to the row with
the given id. -/
def updateUser (db : DB) (userId : Nat) (updateData : List (String × JsField)) : DB :=
  let filteredData := updateData.filter (fun kv => allowedFields.contains kv.1)
  { db with usuarios := db.usuarios.map (fun u =>
      if u.id_usuario == userId then filteredData.foldl applyField u else u) }

/-- `UserModel.changePassword`: stores the new hash only. -/
def changePassword (db : DB) (userId : Nat) (newPassword : String) : DB :=
  { db with usuarios := db.usuarios.map (fun u =>
      if u.id_usuario == userId then
        { u with password_hash := AuthUtils.hashPassword newPassword }
      else u) }

/-- `UserModel.assignRole`: inserts into `usuario_roles`; the unique pair
constraint (`23505`) is reported as `ROLE_ALREADY_ASSIGNED`. -/
def assignRole (db : DB) (userId rolId : Nat) : Except AuthErr DB :=
  if db.usuario_roles.any (fun ur => ur.usuario_id == userId && ur.rol_id == rolId) then
    .error .ROLE_ALREADY_ASSIGNED
  else
    .ok { db with usuario_roles := db.usuario_roles ++ [⟨userId, rolId⟩] }

end UserModel

namespace RoleModel

/-- The Supabase query `from('usuario_roles').select(...).eq(col, v)`:
filtering on a column the table does not have (its columns are `usuario_id`
and `rol_id`) fails with Postgres error `42703` (undefined column) and
returns no data. -/
def selectUserRolesEq (db : DB) (col : String) (v : Nat) :
    Except DbError (List UserRole) :=
  if col == "usuario_id" then
    .ok (db.usuario_roles.filter (fun ur => ur.usuario_id == v))
  else if col == "rol_id" then
    .ok (db.usuario_roles.filter (fun ur => ur.rol_id == v))
  else
    .error ⟨"42703"⟩

/-- `RoleModel.deleteRole`, embedded faithfully: the guard queries
`usuario_roles` with `.eq('id_rol', roleId)` — a column that does not exist —
and destructures only `data`, discarding the error; it then deletes from
`roles`, where the foreign key `usuario_roles.rol_id → roles` (schema:
`rol_id INT REFERENCES roles(id)`) blocks deletion of a role still held by a
user with a raw `23503` violation. -/
def deleteRole (db : DB) (roleId : Nat) : Except AuthErr (Bool × DB) :=
  let userRoles : Option (List UserRole) :=
    match selectUserRolesEq db "id_rol" roleId with
    | .ok d => some d
    | .error _ => none
  if (match userRoles with | some l => decide (0 < l.length) | none => false) then
    .error .ROLE_HAS_USERS
  else
    if db.usuario_roles.any (fun ur => ur.rol_id == roleId) then
      .error (.dbError ⟨"23503"⟩)
    else
      .ok (true, { db with roles := db.roles.filter (fun r => !(r.id_rol == roleId)) })

end RoleModel

/-- Access-token claims (`AuthUtils.generateJWT` payload: user id, email,
role-name list at issuance time). -/
structure AccessToken where
  userId : Nat
  email : String
  roles : List String
  deriving Repr, DecidableEq

/-- The `tokens` object returned by register/login/refresh. -/
structure AuthTokens where
  accessToken : AccessToken
  refreshToken : Nat
  deriving Repr, DecidableEq

/-- The `user` object returned by register/login/refresh. -/
structure AuthUser where
  id : Nat
  email : String
  nombre : Option String
  activo : Bool
  roles : List Rol
  deriving Repr, DecidableEq

/-- Result of a successful register/login/refresh. -/
structure AuthResult where
  user : AuthUser
  tokens : AuthTokens
  deriving Repr, DecidableEq

namespace AuthService

/-- The default role id assigned at registration
(`const colaboradorRoleId = 5`, the pending-approval marker). -/
def colaboradorRoleId : Nat := 5

/-- `AuthService.register`: validate email and password strength, create the
user inactive, assign the pending role, create a session, and return the user
with tokens.  Each store failure is rethrown with the store state reached so
far (there is no transaction in the source). -/
def register (db : DB) (now : Nat) (email password : String)
    (nombre : Option String) (userAgent : Option String) (ip : String) :
    Except AuthErr AuthResult × DB :=
  if !AuthUtils.isValidEmail email then
    (.error .EMAIL_INVALID, db)
  else
    let passwordValidation := AuthUtils.validatePassword password
    if !passwordValidation.isValid then
      (.error (.PASSWORD_WEAK passwordValidation.errors), db)
    else
      match UserModel.createUser db now email password nombre false false with
      | .error e => (.error e, db)
      | .ok (user, db1) =>
        match UserModel.assignRole db1 user.id_usuario colaboradorRoleId with
        | .error e => (.error e, db1)
        | .ok db2 =>
          let (session, db3) := SessionModel.createSession db2 now user.id_usuario userAgent ip
          match UserModel.findWithRoles db3 user.id_usuario with
          | none => (.error (.dbError ⟨"TypeError"⟩), db3)
          | some (_, roles) =>
            (.ok { user := { id := user.id_usuario
                             email := user.email
                             nombre := user.nombre
                             activo := user.activo
                             roles := roles }
                   tokens := { accessToken := { userId := user.id_usuario
                                                email := user.email
                                                roles := roles.map (fun r => r.nombre) }
                               refreshToken := session.refresh_token } }, db3)

/-- `AuthService.login`: find by email (`INVALID_CREDENTIALS` when absent),
check `activo` (`ACCOUNT_DISABLED`), `bloqueado` (`ACCOUNT_LOCKED`), verify
the password (`INVALID_CREDENTIALS` on mismatch), then create an additional
session and issue tokens with the current roles. -/
def login (db : DB) (now : Nat) (email password : String)
    (userAgent : Option String) (ip : String) :
    Except AuthErr AuthResult × DB :=
  match UserModel.findByEmail db email with
  | none => (.error .INVALID_CREDENTIALS, db)
  | some user =>
    if !user.activo then (.error .ACCOUNT_DISABLED, db)
    else if user.bloqueado then (.error .ACCOUNT_LOCKED, db)
    else if !AuthUtils.verifyPassword password user.password_hash then
      (.error .INVALID_CREDENTIALS, db)
    else
      let (session, db1) := SessionModel.createSession db now user.id_usuario userAgent ip
      match UserModel.findWithRoles db1 user.id_usuario with
      | none => (.error (.dbError ⟨"TypeError"⟩), db1)
      | some (_, roles) =>
        (.ok { user := { id := user.id_usuario
                         email := user.email
                         nombre := user.nombre
                         activo := user.activo
                         roles := roles }
               tokens := { accessToken := { userId := user.id_usuario
                                            email := user.email
                                            roles := roles.map (fun r => r.nombre) }
                           refreshToken := session.refresh_token } }, db1)

/-- `AuthService.refreshTokens`: look the session up (`INVALID_REFRESH_TOKEN`
when no active row holds the token), validate it (`SESSION_EXPIRED` otherwise,
keeping any lazy-sweep write), rotate the session, re-read roles, issue a new
access token and touch last activity on the new token. -/
def refreshTokens (db : DB) (now : Nat) (refreshToken : Nat) :
    Except AuthErr AuthResult × DB :=
  match SessionModel.findByRefreshToken db refreshToken with
  | none => (.error .INVALID_REFRESH_TOKEN, db)
  | some session =>
    let validity := SessionModel.isValidSession db now refreshToken
    if !validity.1 then (.error .SESSION_EXPIRED, validity.2)
    else
      match SessionModel.renewSession validity.2 now refreshToken with
      | .error e => (.error (.dbError e), validity.2)
      | .ok (newSession, db2) =>
        match UserModel.findWithRoles db2 session.usuario_id with
        | none => (.error (.dbError ⟨"TypeError"⟩), db2)
        | some (userWithRoles, roles) =>
          let touched := SessionModel.updateLastActivity db2 now newSession.refresh_token
          (.ok { user := { id := userWithRoles.id_usuario
                           email := userWithRoles.email
                           nombre := userWithRoles.nombre
                           activo := userWithRoles.activo
                           roles := roles }
                 tokens := { accessToken := { userId := userWithRoles.id_usuario
                                              email := userWithRoles.email
                                              roles := roles.map (fun r => r.nombre) }
                             refreshToken := newSession.refresh_token } }, touched.2)

/-- `AuthService.logout`: with no token, report success without touching the
store; with a token, invalidate by refresh token.  `storeFails` models an
internal persistence failure of that update: the service logs and RETHROWS it
(the catch block ends in `throw error`). -/
def logout (db : DB) (refreshToken : Option Nat) (storeFails : Bool) :
    Except AuthErr Bool × DB :=
  match refreshToken with
  | none => (.ok true, db)
  | some t =>
    if storeFails then (.error (.dbError ⟨"CONNECTION_LOST"⟩), db)
    else (.ok true, SessionModel.invalidateByRefreshToken db t)

end AuthService

/-- HTTP envelope produced by the controllers (success flag and message). -/
structure ApiEnvelope where
  success : Bool
  message : String
  deriving Repr, DecidableEq

/-- `AuthController.logout` (and the serverless `api/auth/logout.js`): calls
`AuthService.logout` and answers success; any error thrown by the service is
caught and still answered as success ("Incluso si hay error, responder
exitosamente para logout"). -/
def logoutEndpoint (db : DB) (refreshToken : Option Nat) (storeFails : Bool) :
    ApiEnvelope × DB :=
  match AuthService.logout db refreshToken storeFails with
  | (.ok _, db') => ({ success := true, message := "Sesion cerrada exitosamente" }, db')
  | (.error _, db') => ({ success := true, message := "Sesion cerrada" }, db')

/-- A JavaScript runtime value relevant to the middleware comparison:
an Express route parameter is a string, a numeric database id is a number. -/
inductive JSVal where
  | str (s : String)
  | num (n : Nat)
  deriving Repr, DecidableEq

/-- JavaScript strict equality `===` on such values: values of different
runtime types are never strictly equal. -/
def jsStrictEq : JSVal → JSVal → Bool
  | .str a, .str b => a == b
  | .num a, .num b => a == b
  | _, _ => false

/-- The request state the authentication middleware has populated before the
ownership gate runs: `req.user` (with roles) set by `authenticateToken`,
`req.userId = user.id_usuario` (a number), `req.userRoles`, and the raw route
parameter `req.params.userId` (a string). -/
structure AuthedRequest where
  user : Option Usuario
  userId : JSVal
  userRoles : List Rol
  paramsUserId : JSVal
  deriving Repr, DecidableEq

/-- Outcome of a gate middleware: pass through or reject with a code. -/
inductive GateOutcome where
  | next
  | unauthorized (code : String)
  | forbidden (code : String)
  deriving Repr, DecidableEq

/-- `requireOwnershipOrAdmin` (with the default id extractor
`req => req.params.userId`): reject unauthenticated requests; otherwise pass
iff the caller holds the `admin` role (case-insensitive) or
`currentUserId === targetUserId` under JavaScript strict equality. -/
def requireOwnershipOrAdmin (req : AuthedRequest) : GateOutcome :=
  match req.user with
  | none => .unauthorized "AUTHENTICATION_REQUIRED"
  | some _ =>
    let targetUserId := req.paramsUserId
    let currentUserId := req.userId
    let isAdmin := req.userRoles.any (fun role => jsToLower role.nombre == "admin")
    if isAdmin || jsStrictEq currentUserId targetUserId then .next
    else .forbidden "ACCESS_DENIED"

/-! ### The session-lifecycle transition system

Every write the backend ever performs on the `sesiones` relation goes through
one of the operations below (the AuthService flows are compositions of the
SessionModel primitives).  Temporal claims ("permanently", "no subsequent
call") are stated over arbitrary sequences of these operations. -/

/-- One store operation of the session lifecycle. -/
inductive SessionOp where
  | create (now userId : Nat) (userAgent : Option String) (ip : String)
  | invalidateOne (sessionId : Nat) (userId : Option Nat)
  | invalidateAll (userId : Nat) (exceptSessionId : Option Nat)
  | invalidateByToken (refreshToken : Nat)
  | checkValid (now refreshToken : Nat)
  | touch (now refreshToken : Nat)
  | cleanExpired (now : Nat)
  | renewOp (now refreshToken : Nat)
  | refreshOp (now refreshToken : Nat)
  | logoutOp (refreshToken : Option Nat) (storeFails : Bool)
  | loginOp (now : Nat) (email password : String) (userAgent : Option String) (ip : String)
  | registerOp (now : Nat) (email password : String) (nombre userAgent : Option String)
      (ip : String)

/-- The store reached after executing one operation (results discarded). -/
def stepDB (db : DB) : SessionOp → DB
  | .create now userId ua ip => (SessionModel.createSession db now userId ua ip).2
  | .invalidateOne sid uid => SessionModel.invalidateSession db sid uid
  | .invalidateAll uid exc => (SessionModel.invalidateAllUserSessions db uid exc).2
  | .invalidateByToken t => SessionModel.invalidateByRefreshToken db t
  | .checkValid now t => (SessionModel.isValidSession db now t).2
  | .touch now t => (SessionModel.updateLastActivity db now t).2
  | .cleanExpired now => (SessionModel.cleanExpiredSessions db now).2
  | .renewOp now t =>
    match SessionModel.renewSession db now t with
    | .ok p => p.2
    | .error _ => db
  | .refreshOp now t => (AuthService.refreshTokens db now t).2
  | .logoutOp t f => (AuthService.logout db t f).2
  | .loginOp now e pw ua ip => (AuthService.login db now e pw ua ip).2
  | .registerOp now e pw nom ua ip => (AuthService.register db now e pw nom ua ip).2

/-- Permanent unusability of a refresh token: every session row holding it is
inactive, and the freshness counter has moved past it, so no operation can
ever issue it again. -/
def refreshTokenDead (t : Nat) (db : DB) : Prop :=
  (∀ s ∈ db.sesiones, s.refresh_token = t → s.activo = false) ∧ t < db.nextToken

/-- Permanent inactivity of a session id: every row carrying it is inactive
and the id generator has moved past it. -/
def sessionIdDead (sid : Nat) (db : DB) : Prop :=
  (∀ s ∈ db.sesiones, s.id_sesion = sid → s.activo = false) ∧ sid < db.nextSessionId

/-- How one operation relates the stores before and after: surviving rows are
the image of a per-row function that keeps ids, never resurrects the active
flag, and only ever replaces a token by a fresh one; appended rows carry fresh
ids and fresh tokens; the freshness counters never decrease. -/
def ShapeStep (db db' : DB) : Prop :=
  ∃ (f : Sesion → Sesion) (newRows : List Sesion),
    db'.sesiones = db.sesiones.map f ++ newRows ∧
    (∀ s, (f s).id_sesion = s.id_sesion) ∧
    (∀ s, (f s).activo = true → s.activo = true) ∧
    (∀ s, (f s).refresh_token = s.refresh_token ∨ db.nextToken ≤ (f s).refresh_token) ∧
    (∀ r ∈ newRows, db.nextSessionId ≤ r.id_sesion ∧ db.nextToken ≤ r.refresh_token) ∧
    db.nextSessionId ≤ db'.nextSessionId ∧
    db.nextToken ≤ db'.nextToken

/-! ### Concrete fixtures used as counterexamples and witnesses -/

/-- A non-admin (client) role. -/
def clienteRol : Rol := { id_rol := 3, nombre := "cliente", descripcion := none }

/-- The pending-approval marker role (id 5). -/
def colaboradorRol : Rol := { id_rol := 5, nombre := "colaborador", descripcion := none }

/-- An active, unlocked user with numeric id 7. -/
def ownerUser : Usuario :=
  { id_usuario := 7
    email := "owner@example.com"
    password_hash := AuthUtils.hashPassword "GoodPass1!"
    nombre := some "Owner"
    activo := true
    bloqueado := false
    intentos_fallidos := 0
    fecha_bloqueo := none
    fecha_creacion := 0 }

/-- The request of `ownerUser` for the resource `/users/7`: authenticated,
non-admin, `req.userId` is the number `7` from the database row and
`req.params.userId` is the route-parameter string `"7"` denoting the same id. -/
def ownerRequest : AuthedRequest :=
  { user := some ownerUser
    userId := .num 7
    userRoles := [clienteRol]
    paramsUserId := .str (toString 7) }

/-- The same situation for a caller holding the `admin` role,
requesting someone else's resource. -/
def adminRequest : AuthedRequest :=
  { user := some ownerUser
    userId := .num 7
    userRoles := [{ id_rol := 1, nombre := "admin", descripcion := none }]
    paramsUserId := .str "99" }

/-- A store in which role 5 exists and user 7 holds it through the junction. -/
def roleHeldDB : DB :=
  { usuarios := [ownerUser]
    roles := [colaboradorRol]
    usuario_roles := [{ usuario_id := 7, rol_id := 5 }]
    sesiones := []
    nextUserId := 8
    nextSessionId := 1
    nextToken := 1 }

/-- A store holding one user whose `fecha_bloqueo` is unset. -/
def frameDB : DB :=
  { usuarios := [{ id_usuario := 1
                   email := "frozen@example.com"
                   password_hash := AuthUtils.hashPassword "Secret123!"
                   nombre := some "Frio"
                   activo := true
                   bloqueado := false
                   intentos_fallidos := 0
                   fecha_bloqueo := none
                   fecha_creacion := 0 }]
    roles := []
    usuario_roles := []
    sesiones := []
    nextUserId := 2
    nextSessionId := 1
    nextToken := 1 }

/-- A store with a session of user 7 whose expiry is exactly timestamp 1000. -/
def boundaryDB : DB :=
  { usuarios := [ownerUser]
    roles := []
    usuario_roles := []
    sesiones := [{ id_sesion := 1
                   usuario_id := 7
                   refresh_token := 10
                   user_agent := "Chrome"
                   ip := "1.1.1.1"
                   fecha_creacion := 0
                   fecha_expiracion := 1000
                   activo := true }]
    nextUserId := 8
    nextSessionId := 2
    nextToken := 11 }

/-- `boundaryDB` after its only session was invalidated (e.g. by logout). -/
def loggedOutDB : DB :=
  { usuarios := [ownerUser]
    roles := []
    usuario_roles := []
    sesiones := [{ id_sesion := 1
                   usuario_id := 7
                   refresh_token := 10
                   user_agent := "Chrome"
                   ip := "1.1.1.1"
                   fecha_creacion := 0
                   fecha_expiracion := 1000
                   activo := false }]
    nextUserId := 8
    nextSessionId := 2
    nextToken := 11 }

/-- A store holding only a pending (inactive) account. -/
def disabledDB : DB :=
  { usuarios := [{ id_usuario := 1
                   email := "pending@example.com"
                   password_hash := AuthUtils.hashPassword "GoodPass1!"
                   nombre := none
                   activo := false
                   bloqueado := false
                   intentos_fallidos := 0
                   fecha_bloqueo := none
                   fecha_creacion := 0 }]
    roles := []
    usuario_roles := []
    sesiones := []
    nextUserId := 2
    nextSessionId := 1
    nextToken := 1 }

/-- A store holding only an active but locked account. -/
def lockedDB : DB :=
  { usuarios := [{ id_usuario := 1
                   email := "locked@example.com"
                   password_hash := AuthUtils.hashPassword "GoodPass1!"
                   nombre := none
                   activo := true
                   bloqueado := true
                   intentos_fallidos := 0
                   fecha_bloqueo := some 0
                   fecha_creacion := 0 }]
    roles := []
    usuario_roles := []
    sesiones := []
    nextUserId := 2
    nextSessionId := 1
    nextToken := 1 }

/-- A store holding only `ownerUser` (active, unlocked). -/
def ownerDB : DB :=
  { usuarios := [ownerUser]
    roles := []
    usuario_roles := []
    sesiones := []
    nextUserId := 8
    nextSessionId := 1
    nextToken := 1 }

/-- The empty store. -/
def emptyDB : DB :=
  { usuarios := []
    roles := []
    usuario_roles := []
    sesiones := []
    nextUserId := 1
    nextSessionId := 1
    nextToken := 1 }

/-! ### Helper lemmas -/

lemma msgMinLength_ne_msgUpper : AuthUtils.msgMinLength ≠ AuthUtils.msgUpper := by decide

lemma msgMinLength_ne_msgLower : AuthUtils.msgMinLength ≠ AuthUtils.msgLower := by decide

lemma msgMinLength_ne_msgDigit : AuthUtils.msgMinLength ≠ AuthUtils.msgDigit := by decide

lemma msgMinLength_ne_msgSpecial : AuthUtils.msgMinLength ≠ AuthUtils.msgSpecial := by decide

lemma msgUpper_ne_msgLower : AuthUtils.msgUpper ≠ AuthUtils.msgLower := by decide

lemma msgUpper_ne_msgDigit : AuthUtils.msgUpper ≠ AuthUtils.msgDigit := by decide

lemma msgUpper_ne_msgSpecial : AuthUtils.msgUpper ≠ AuthUtils.msgSpecial := by decide

lemma msgLower_ne_msgDigit : AuthUtils.msgLower ≠ AuthUtils.msgDigit := by decide

lemma msgLower_ne_msgSpecial : AuthUtils.msgLower ≠ AuthUtils.msgSpecial := by decide

lemma msgDigit_ne_msgSpecial : AuthUtils.msgDigit ≠ AuthUtils.msgSpecial := by decide

lemma ite_singleton_eq_nil {c : Prop} [Decidable c] {m : String} :
    (if c then [m] else []) = ([] : List String) ↔ ¬c := by
  split <;> simp_all

lemma mem_ite_singleton {c : Prop} [Decidable c] {m x : String} :
    x ∈ (if c then [m] else []) ↔ c ∧ x = m := by
  split <;> simp_all

lemma contains_mem {l : List String} {a : String} (h : l.contains a = true) : a ∈ l := by
  simpa using h

lemma find?_eq_of_nodup {α β : Type} [DecidableEq β] (l : List α) (key : α → β)
    (p : α → Bool) (hnd : (l.map key).Nodup) (s : α) (hmem : s ∈ l)
    (hps : p s = true) (hkey : ∀ x, p x = true → key x = key s) :
    l.find? p = some s := by
  induction l with
  | nil => cases hmem
  | cons a l ih =>
    rw [List.map_cons, List.nodup_cons] at hnd
    rcases List.mem_cons.mp hmem with rfl | hmem'
    · exact List.find?_cons_of_pos _ hps
    · by_cases hpa : p a = true
      · exact absurd (hkey a hpa ▸ List.mem_map_of_mem key hmem') hnd.1
      · rw [List.find?_cons_of_neg _ (by simpa using hpa)]
        exact ih hnd.2 hmem'

lemma find?_append_none {α : Type} (l₁ l₂ : List α) (p : α → Bool)
    (h : l₁.find? p = none) : (l₁ ++ l₂).find? p = l₂.find? p := by
  induction l₁ with
  | nil => rfl
  | cons a l ih =>
    rw [List.find?_cons] at h
    cases hpa : p a with
    | true => rw [hpa] at h; cases h
    | false =>
      rw [hpa] at h
      rw [List.cons_append, List.find?_cons, hpa]
      exact ih h

lemma login_not_found (db : DB) (now : Nat) (email password : String)
    (ua : Option String) (ip : String)
    (h : UserModel.findByEmail db email = none) :
    AuthService.login db now email password ua ip = (.error .INVALID_CREDENTIALS, db) := by
  simp only [AuthService.login, h]

lemma login_disabled (db : DB) (now : Nat) (email password : String)
    (ua : Option String) (ip : String) (u : Usuario)
    (h : UserModel.findByEmail db email = some u) (hact : u.activo = false) :
    AuthService.login db now email password ua ip = (.error .ACCOUNT_DISABLED, db) := by
  simp [AuthService.login, h, hact]

lemma login_locked (db : DB) (now : Nat) (email password : String)
    (ua : Option String) (ip : String) (u : Usuario)
    (h : UserModel.findByEmail db email = some u) (hact : u.activo = true)
    (hblo : u.bloqueado = true) :
    AuthService.login db now email password ua ip = (.error .ACCOUNT_LOCKED, db) := by
  simp [AuthService.login, h, hact, hblo]

lemma login_wrong_password (db : DB) (now : Nat) (email password : String)
    (ua : Option String) (ip : String) (u : Usuario)
    (h : UserModel.findByEmail db email = some u) (hact : u.activo = true)
    (hblo : u.bloqueado = false)
    (hpw : AuthUtils.verifyPassword password u.password_hash = false) :
    AuthService.login db now email password ua ip = (.error .INVALID_CREDENTIALS, db) := by
  simp [AuthService.login, h, hact, hblo, hpw]

lemma applyField_allowed_frame (u : Usuario) (kv : String × JsField)
    (hk : kv.1 ∈ UserModel.allowedFields) :
    (UserModel.applyField u kv).email = u.email ∧
    (UserModel.applyField u kv).password_hash = u.password_hash ∧
    (UserModel.applyField u kv).id_usuario = u.id_usuario ∧
    (UserModel.applyField u kv).fecha_creacion = u.fecha_creacion := by
  rcases kv with ⟨k, v⟩
  simp only [UserModel.allowedFields, List.mem_cons, List.not_mem_nil, or_false] at hk
  rcases hk with rfl | rfl | rfl | rfl | rfl <;> cases v <;>
    simp [UserModel.applyField]

lemma foldl_applyField_frame (data : List (String × JsField))
    (h : ∀ kv ∈ data, kv.1 ∈ UserModel.allowedFields) (u : Usuario) :
    (data.foldl UserModel.applyField u).email = u.email ∧
    (data.foldl UserModel.applyField u).password_hash = u.password_hash ∧
    (data.foldl UserModel.applyField u).id_usuario = u.id_usuario ∧
    (data.foldl UserModel.applyField u).fecha_creacion = u.fecha_creacion := by
  induction data generalizing u with
  | nil => simp
  | cons kv rest ih =>
    have hstep := applyField_allowed_frame u kv (h kv (List.mem_cons_self _ _))
    have hrest := ih (fun kv' h' => h kv' (List.mem_cons_of_mem _ h'))
      (UserModel.applyField u kv)
    refine ⟨?_, ?_, ?_, ?_⟩ <;>
      simp only [List.foldl_cons] <;>
      [exact hrest.1.trans hstep.1; exact hrest.2.1.trans hstep.2.1;
       exact hrest.2.2.1.trans hstep.2.2.1; exact hrest.2.2.2.trans hstep.2.2.2]

/-! ### Theorems for the claims -/

/-- C7: `validatePassword p` is valid iff `p` has length at least 8 and
contains an uppercase letter, a lowercase letter, a digit and a symbol from
the fixed special-character set; the errors list carries one entry for every
violated rule (each rule's message is present exactly when that rule is
violated); and the three reference examples behave as stated. -/
theorem validatePassword_spec :
    (∀ p : String,
      ((AuthUtils.validatePassword p).isValid = true ↔
        (8 ≤ p.length ∧
         p.toList.any (fun c => 'A' ≤ c && c ≤ 'Z') = true ∧
         p.toList.any (fun c => 'a' ≤ c && c ≤ 'z') = true ∧
         p.toList.any (fun c => '0' ≤ c && c ≤ '9') = true ∧
         p.toList.any (fun c => AuthUtils.specialChars.contains c) = true)) ∧
      (AuthUtils.msgMinLength ∈ (AuthUtils.validatePassword p).errors ↔ p.length < 8) ∧
      (AuthUtils.msgUpper ∈ (AuthUtils.validatePassword p).errors ↔
        p.toList.any (fun c => 'A' ≤ c && c ≤ 'Z') = false) ∧
      (AuthUtils.msgLower ∈ (AuthUtils.validatePassword p).errors ↔
        p.toList.any (fun c => 'a' ≤ c && c ≤ 'z') = false) ∧
      (AuthUtils.msgDigit ∈ (AuthUtils.validatePassword p).errors ↔
        p.toList.any (fun c => '0' ≤ c && c ≤ '9') = false) ∧
      (AuthUtils.msgSpecial ∈ (AuthUtils.validatePassword p).errors ↔
        p.toList.any (fun c => AuthUtils.specialChars.contains c) = false)) ∧
    ((AuthUtils.validatePassword "short1!").isValid = false ∧
      AuthUtils.msgMinLength ∈ (AuthUtils.validatePassword "short1!").errors) ∧
    ((AuthUtils.validatePassword "alllowercase1!").isValid = false ∧
      AuthUtils.msgUpper ∈ (AuthUtils.validatePassword "alllowercase1!").errors) ∧
    (AuthUtils.validatePassword "GOOD-Pass123!").isValid = true := by
  refine ⟨fun p => ?_, ⟨by decide, by decide⟩, ⟨by decide, by decide⟩, by decide⟩
  refine ⟨?_, ?_, ?_, ?_, ?_, ?_⟩ <;>
    simp [AuthUtils.validatePassword, List.isEmpty_iff, List.append_eq_nil,
      ite_singleton_eq_nil, mem_ite_singleton, Nat.not_lt, Bool.not_eq_true,
      msgMinLength_ne_msgUpper, msgMinLength_ne_msgLower,
      msgMinLength_ne_msgDigit, msgMinLength_ne_msgSpecial,
      msgUpper_ne_msgLower, msgUpper_ne_msgDigit, msgUpper_ne_msgSpecial,
      msgLower_ne_msgDigit, msgLower_ne_msgSpecial, msgDigit_ne_msgSpecial,
      Ne.symm msgMinLength_ne_msgUpper, Ne.symm msgMinLength_ne_msgLower,
      Ne.symm msgMinLength_ne_msgDigit, Ne.symm msgMinLength_ne_msgSpecial,
      Ne.symm msgUpper_ne_msgLower, Ne.symm msgUpper_ne_msgDigit,
      Ne.symm msgUpper_ne_msgSpecial, Ne.symm msgLower_ne_msgDigit,
      Ne.symm msgLower_ne_msgSpecial, Ne.symm msgDigit_ne_msgSpecial]

/-- C4: logout always reports success to the caller: with no refresh token it
succeeds as a no-op (the store is untouched, both at the service and at the
endpoint), and with a token it reports success even when the session-store
invalidation fails internally — the thrown error is caught at the endpoint
boundary and answered as success, and a failed invalidation leaves the store
untouched rather than half-updated. -/
theorem logout_always_succeeds :
    ∀ (db : DB) (refreshToken : Option Nat) (storeFails : Bool),
      (logoutEndpoint db refreshToken storeFails).1.success = true ∧
      AuthService.logout db none storeFails = (.ok true, db) ∧
      (logoutEndpoint db none storeFails).2 = db ∧
      (logoutEndpoint db refreshToken true).2 = db := by
  intro db refreshToken storeFails
  refine ⟨?_, rfl, rfl, ?_⟩ <;>
    rcases refreshToken with _ | t <;>
      cases storeFails <;>
        simp [logoutEndpoint, AuthService.logout]

/-- C8 (failing input): the authenticated non-admin user with numeric id 7,
requesting the resource whose route parameter names that same id (the string
`"7"`), is rejected with ACCESS_DENIED — the ownership branch compares the
string route parameter with the numeric database id under JavaScript `===`,
which never equates values of different runtime types — while an admin
passes.  The claim (and the middleware's own comment) says the owner must
pass. -/
theorem requireOwnershipOrAdmin_owner_rejected :
    requireOwnershipOrAdmin ownerRequest = .forbidden "ACCESS_DENIED" ∧
    ownerRequest.userId = .num 7 ∧
    ownerRequest.paramsUserId = .str (toString 7) ∧
    (ownerRequest.userRoles.any (fun role => jsToLower role.nombre == "admin")) = false ∧
    requireOwnershipOrAdmin adminRequest = .next := by
  refine ⟨by decide, by decide, by decide, by decide, by decide⟩

/-- C9 (failing input): in a store where user 7 holds role 5, `deleteRole 5`
does not fail with ROLE_HAS_USERS: its guard queries the junction table on
the nonexistent column `id_rol` (the column is `rol_id`), discards the `42703`
query error, sees no data and proceeds; the delete then surfaces the raw
foreign-key violation `23503` instead. -/
theorem deleteRole_raw_fk_error :
    (roleHeldDB.usuario_roles.any (fun ur => ur.rol_id == 5)) = true ∧
    RoleModel.selectUserRolesEq roleHeldDB "id_rol" 5 = .error { code := "42703" } ∧
    RoleModel.deleteRole roleHeldDB 5 = .error (.dbError { code := "23503" }) ∧
    RoleModel.deleteRole roleHeldDB 5 ≠ .error .ROLE_HAS_USERS := by
  refine ⟨by decide, by rfl, by rfl, ?_⟩
  intro h
  rw [show RoleModel.deleteRole roleHeldDB 5 = .error (.dbError { code := "23503" }) from rfl] at h
  exact absurd (Except.error.inj h) (by decide)

/-- C10 (counterexample): `updateUser` applied to a payload containing only
the key `fecha_bloqueo` changes the stored lock timestamp — a field that is
neither the name, the active flag, the locked flag nor the failed-attempts
counter — refuting "every other field supplied in the payload is ignored and
the stored value is left unchanged". -/
theorem updateUser_mutates_fecha_bloqueo :
    (UserModel.updateUser frameDB 1 [("fecha_bloqueo", .vNat 42)]).usuarios.map
        (fun u => u.fecha_bloqueo) = [some 42] ∧
    frameDB.usuarios.map (fun u => u.fecha_bloqueo) = [none] ∧
    ("fecha_bloqueo" : String) ∉ ["nombre", "activo", "bloqueado", "intentos_fallidos"] := by
  refine ⟨by decide, by decide, by decide⟩

/-- C10 (amended): `updateUser` mutates only the allow-listed mutable fields
`nombre`, `activo`, `bloqueado`, `intentos_fallidos` and `fecha_bloqueo`;
whatever the payload contains, the stored email, password hash, id and
creation timestamp are unchanged on every row, and rows other than the
targeted user are untouched entirely. -/
theorem updateUser_frame :
    ∀ (db : DB) (userId : Nat) (updateData : List (String × JsField)),
      List.Forall₂ (fun u u' =>
          u'.id_usuario = u.id_usuario ∧ u'.email = u.email ∧
          u'.password_hash = u.password_hash ∧ u'.fecha_creacion = u.fecha_creacion ∧
          (u.id_usuario ≠ userId → u' = u))
        db.usuarios (UserModel.updateUser db userId updateData).usuarios := by
  intro db userId updateData
  show List.Forall₂ _ db.usuarios (db.usuarios.map _)
  induction db.usuarios with
  | nil => exact List.Forall₂.nil
  | cons u rest ih =>
    refine List.Forall₂.cons ?_ ih
    by_cases hbeq : (u.id_usuario == userId) = true
    · have hid : u.id_usuario = userId := by simpa using hbeq
      have hfr := foldl_applyField_frame
        (updateData.filter (fun kv => UserModel.allowedFields.contains kv.1))
        (fun kv hkv => contains_mem (List.mem_filter.mp hkv).2) u
      simp only [List.map_cons, hbeq, if_pos]
      exact ⟨hfr.2.2.1, hfr.1, hfr.2.1, hfr.2.2.2, fun hne => absurd hid hne⟩
    · simp only [List.map_cons, hbeq, if_neg]
      simp [hbeq]

/-- C2 (counterexample): at the exact expiration instant the code still
reports the session valid — `isValidSession` rejects only when
`now > fecha_expiracion` — although no session of the store has its
expiration strictly after `now`, refuting "valid only if the current time is
strictly before the session's expiration timestamp". -/
theorem isValidSession_boundary_counterexample :
    (SessionModel.isValidSession boundaryDB 1000 10).1 = true ∧
    (∀ s ∈ boundaryDB.sesiones, ¬(1000 < s.fecha_expiracion)) := by
  refine ⟨by decide, by decide⟩

/-- C2 (amended): when refresh tokens and user ids are unique in the store
(the schema's unique constraints), `isValidSession t` returns true iff a
session with token `t` exists with `active = true`, the current time is at or
before the session's expiration timestamp, and the owning user is active and
not locked; and whenever the lookup finds a still-active session whose
expiration has passed, the check returns false and the session's row is
flipped to inactive in the resulting store (lazy expiry sweep). -/
theorem isValidSession_spec (db : DB) (now t : Nat)
    (hndtok : (db.sesiones.map (fun s => s.refresh_token)).Nodup)
    (hnduser : (db.usuarios.map (fun u => u.id_usuario)).Nodup) :
    ((SessionModel.isValidSession db now t).1 = true ↔
      ∃ s ∈ db.sesiones, s.refresh_token = t ∧ s.activo = true ∧
        now ≤ s.fecha_expiracion ∧
        ∃ u ∈ db.usuarios, u.id_usuario = s.usuario_id ∧ u.activo = true ∧
          u.bloqueado = false) ∧
    (∀ s, SessionModel.findByRefreshToken db t = some s →
       s.fecha_expiracion < now →
       (SessionModel.isValidSession db now t).1 = false ∧
       ∀ s' ∈ (SessionModel.isValidSession db now t).2.sesiones,
         s'.id_sesion = s.id_sesion → s'.activo = false) := by
  constructor
  · constructor
    · intro h
      cases hf : SessionModel.findByRefreshToken db t with
      | none => simp only [SessionModel.isValidSession, hf] at h; simp at h
      | some s =>
        simp only [SessionModel.isValidSession, hf] at h
        have hf' : db.sesiones.find? (fun s => s.refresh_token == t && s.activo) = some s := by
          simpa [SessionModel.findByRefreshToken] using hf
        have hsp := List.find?_some hf'
        have hsmem : s ∈ db.sesiones := List.mem_of_find?_eq_some hf'
        simp only [Bool.and_eq_true, beq_iff_eq] at hsp
        by_cases hexp : now > s.fecha_expiracion
        · rw [if_pos hexp] at h; simp at h
        · rw [if_neg hexp] at h
          cases hu : db.usuarios.find? (fun u => u.id_usuario == s.usuario_id) with
          | none => simp only [hu] at h; simp at h
          | some u =>
            simp only [hu] at h
            by_cases hflag : (!u.activo || u.bloqueado) = true
            · rw [if_pos hflag] at h; simp at h
            · have humem : u ∈ db.usuarios := List.mem_of_find?_eq_some hu
              have huid := List.find?_some hu
              simp only [Bool.or_eq_true, Bool.not_eq_true'] at hflag
              push_neg at hflag
              refine ⟨s, hsmem, hsp.1, hsp.2, Nat.not_lt.mp hexp,
                u, humem, by simpa using huid, ?_, ?_⟩
              · cases hu' : u.activo with
                | true => rfl
                | false => exact absurd hu' hflag.1
              · cases hb : u.bloqueado with
                | false => rfl
                | true => exact absurd hb hflag.2
    · rintro ⟨s, hsmem, htok, hact, hexp, u, humem, huid, huact, hublo⟩
      have hf : SessionModel.findByRefreshToken db t = some s := by
        unfold SessionModel.findByRefreshToken
        refine find?_eq_of_nodup _ (fun s => s.refresh_token) _ hndtok s hsmem
          (by simp [htok, hact]) ?_
        intro x hx
        simp only [Bool.and_eq_true, beq_iff_eq] at hx
        simp [hx.1, htok]
      have hu : db.usuarios.find? (fun u' => u'.id_usuario == s.usuario_id) = some u := by
        refine find?_eq_of_nodup _ (fun u' => u'.id_usuario) _ hnduser u humem
          (by simp [huid]) ?_
        intro x hx
        simp only [beq_iff_eq] at hx
        simp [hx, huid]
      simp only [SessionModel.isValidSession, hf, hu]
      rw [if_neg (Nat.not_lt.mpr hexp),
        if_neg (by simp [huact, hublo] : ¬(!u.activo || u.bloqueado) = true)]
  · intro s hf hlate
    simp only [SessionModel.isValidSession, hf]
    rw [if_pos (hlate : now > s.fecha_expiracion)]
    refine ⟨rfl, ?_⟩
    intro s' hmem hid
    simp only [SessionModel.invalidateSession, List.mem_map] at hmem
    rcases hmem with ⟨x, hx, rfl⟩
    by_cases hbeq : (x.id_sesion == s.id_sesion) = true
    · simp only [hbeq, Bool.true_and, if_pos]
    · rw [if_neg (by simp [hbeq])] at hid ⊢
      exact absurd hid (by simpa using hbeq)

/-- Witness for `isValidSession_spec` at a concrete store: the hypotheses
hold and the characterization applies. -/
theorem isValidSession_spec_witness :
    ((boundaryDB.sesiones.map (fun s => s.refresh_token)).Nodup ∧
     (boundaryDB.usuarios.map (fun u => u.id_usuario)).Nodup) ∧
    (((SessionModel.isValidSession boundaryDB 500 10).1 = true ↔
      ∃ s ∈ boundaryDB.sesiones, s.refresh_token = 10 ∧ s.activo = true ∧
        500 ≤ s.fecha_expiracion ∧
        ∃ u ∈ boundaryDB.usuarios, u.id_usuario = s.usuario_id ∧ u.activo = true ∧
          u.bloqueado = false) ∧
    (∀ s, SessionModel.findByRefreshToken boundaryDB 10 = some s →
       s.fecha_expiracion < 500 →
       (SessionModel.isValidSession boundaryDB 500 10).1 = false ∧
       ∀ s' ∈ (SessionModel.isValidSession boundaryDB 500 10).2.sesiones,
         s'.id_sesion = s.id_sesion → s'.activo = false)) :=
  ⟨⟨by decide, by decide⟩, isValidSession_spec boundaryDB 500 10 (by decide) (by decide)⟩

/-- C6: login with an email matching no stored user and login with a wrong
password against a stored active, unlocked user both fail with the same
INVALID_CREDENTIALS code and leave the store unchanged (so no session record
is created and the two failure causes are externally indistinguishable by
error code); an inactive account fails with ACCOUNT_DISABLED and an active
locked account with ACCOUNT_LOCKED, likewise without touching the store. -/
theorem login_error_taxonomy :
    ∀ (db : DB) (now : Nat) (email password : String) (ua : Option String) (ip : String),
      (UserModel.findByEmail db email = none →
        AuthService.login db now email password ua ip = (.error .INVALID_CREDENTIALS, db)) ∧
      (∀ u, UserModel.findByEmail db email = some u →
        (u.activo = false →
          AuthService.login db now email password ua ip = (.error .ACCOUNT_DISABLED, db)) ∧
        (u.activo = true → u.bloqueado = true →
          AuthService.login db now email password ua ip = (.error .ACCOUNT_LOCKED, db)) ∧
        (u.activo = true → u.bloqueado = false →
          AuthUtils.verifyPassword password u.password_hash = false →
          AuthService.login db now email password ua ip = (.error .INVALID_CREDENTIALS, db))) := by
  intro db now email password ua ip
  refine ⟨login_not_found db now email password ua ip, ?_⟩
  intro u hu
  exact ⟨login_disabled db now email password ua ip u hu,
    fun hact hblo => login_locked db now email password ua ip u hu hact hblo,
    fun hact hblo hpw => login_wrong_password db now email password ua ip u hu hact hblo hpw⟩

/-- Witness for `login_error_taxonomy`: all four branches discharged at
concrete stores — unknown email, wrong password, disabled account, locked
account. -/
theorem login_error_taxonomy_witness :
    AuthService.login emptyDB 0 "ghost@example.com" "GoodPass1!" none "ip" =
      (.error .INVALID_CREDENTIALS, emptyDB) ∧
    AuthService.login ownerDB 0 "owner@example.com" "WrongPass1!" none "ip" =
      (.error .INVALID_CREDENTIALS, ownerDB) ∧
    AuthService.login disabledDB 0 "pending@example.com" "GoodPass1!" none "ip" =
      (.error .ACCOUNT_DISABLED, disabledDB) ∧
    AuthService.login lockedDB 0 "locked@example.com" "GoodPass1!" none "ip" =
      (.error .ACCOUNT_LOCKED, lockedDB) := by
  refine ⟨(login_error_taxonomy emptyDB 0 "ghost@example.com" "GoodPass1!" none "ip").1
      (by decide), ?_, ?_, ?_⟩
  · exact (((login_error_taxonomy ownerDB 0 "owner@example.com" "WrongPass1!" none "ip").2
      ownerUser (by decide)).2.2 (by decide) (by decide) (by decide))
  · exact (((login_error_taxonomy disabledDB 0 "pending@example.com" "GoodPass1!" none "ip").2
      (disabledDB.usuarios.get ⟨0, by decide⟩) (by decide)).1 (by decide))
  · exact (((login_error_taxonomy lockedDB 0 "locked@example.com" "GoodPass1!" none "ip").2
      (lockedDB.usuarios.get ⟨0, by decide⟩) (by decide)).2.1 (by decide) (by decide))

/-- C5: for a well-formed email and strong password not yet registered (and
fresh id/junction counters, the store invariants), `register` succeeds and
creates the user inactive with the pending-approval role (id 5) and an active
session; and login with those credentials fails with ACCOUNT_DISABLED — both
immediately after registration and on every later store in which the account
is still inactive, so the failure repeats until an administrator activates
the account. -/
theorem register_pending_then_login_disabled
    (db : DB) (now now2 : Nat) (email password : String) (nombre : Option String)
    (ua ua2 : Option String) (ip ip2 : String)
    (hemail : AuthUtils.isValidEmail email = true)
    (hpass : (AuthUtils.validatePassword password).isValid = true)
    (hfree : ∀ u ∈ db.usuarios, u.email ≠ jsToLower email)
    (hid : ∀ u ∈ db.usuarios, u.id_usuario ≠ db.nextUserId)
    (hrole : ∀ ur ∈ db.usuario_roles, ur.usuario_id ≠ db.nextUserId) :
    ∃ res db', AuthService.register db now email password nombre ua ip = (.ok res, db') ∧
      res.user.activo = false ∧
      (∃ u ∈ db'.usuarios, u.email = jsToLower email ∧ u.activo = false ∧
        ({ usuario_id := u.id_usuario, rol_id := AuthService.colaboradorRoleId } : UserRole)
          ∈ db'.usuario_roles ∧
        ∃ s ∈ db'.sesiones, s.usuario_id = u.id_usuario ∧ s.activo = true) ∧
      (∀ (db2 : DB) (u2 : Usuario),
        UserModel.findByEmail db2 email = some u2 → u2.activo = false →
        AuthService.login db2 now2 email password ua2 ip2 = (.error .ACCOUNT_DISABLED, db2)) ∧
      AuthService.login db' now2 email password ua2 ip2 = (.error .ACCOUNT_DISABLED, db') := by
  have hany : (db.usuarios.any fun u => u.email == jsToLower email) = false := by
    cases hcase : db.usuarios.any (fun u => u.email == jsToLower email) with
    | false => rfl
    | true =>
      obtain ⟨x, hx, hbeq⟩ := List.any_eq_true.mp hcase
      exact absurd (by simpa using hbeq) (hfree x hx)
  have hanyrole : (db.usuario_roles.any fun ur =>
      ur.usuario_id == db.nextUserId && ur.rol_id == AuthService.colaboradorRoleId) = false := by
    cases hcase : db.usuario_roles.any (fun ur =>
        ur.usuario_id == db.nextUserId && ur.rol_id == AuthService.colaboradorRoleId) with
    | false => rfl
    | true =>
      obtain ⟨x, hx, hbeq⟩ := List.any_eq_true.mp hcase
      simp only [Bool.and_eq_true, beq_iff_eq] at hbeq
      exact absurd hbeq.1 (hrole x hx)
  have hfindid : db.usuarios.find? (fun u' => u'.id_usuario == db.nextUserId) = none :=
    List.find?_eq_none.mpr (fun x hx => by simpa using hid x hx)
  have hfindmail : db.usuarios.find? (fun u => u.email == jsToLower email) = none :=
    List.find?_eq_none.mpr (fun x hx => by simpa using hfree x hx)
  simp only [AuthService.register, hemail, hpass, Bool.not_true, Bool.false_eq_true,
    if_false, UserModel.createUser, hany, UserModel.assignRole, SessionModel.createSession,
    UserModel.findWithRoles]
  simp only [hanyrole, Bool.false_eq_true, if_false, find?_append_none _ _ _ hfindid,
    List.find?_cons, beq_self_eq_true]
  refine ⟨_, _, rfl, rfl, ?_, ?_, ?_⟩
  · refine ⟨_, List.mem_append_right _ (List.mem_singleton_self _), rfl, rfl,
      List.mem_append_right _ (List.mem_singleton_self _), _,
      List.mem_append_right _ (List.mem_singleton_self _), rfl, rfl⟩
  · intro db2 u2 hfind hact
    exact login_disabled db2 now2 email password ua2 ip2 u2 hfind hact
  · have hfind3 : UserModel.findByEmail
        { usuarios := db.usuarios ++
            [{ id_usuario := db.nextUserId, email := jsToLower email,
               password_hash := AuthUtils.hashPassword password, nombre := nombre,
               activo := false, bloqueado := false, intentos_fallidos := 0,
               fecha_bloqueo := none, fecha_creacion := now }]
          roles := db.roles
          usuario_roles := db.usuario_roles ++
            [{ usuario_id := db.nextUserId, rol_id := AuthService.colaboradorRoleId }]
          sesiones := db.sesiones ++
            [{ id_sesion := db.nextSessionId, usuario_id := db.nextUserId,
               refresh_token := db.nextToken, user_agent := AuthUtils.parseUserAgent ua,
               ip := ip, fecha_creacion := now,
               fecha_expiracion := AuthUtils.getExpirationDate now, activo := true }]
          nextUserId := db.nextUserId + 1
          nextSessionId := db.nextSessionId + 1
          nextToken := db.nextToken + 1 } email =
          some { id_usuario := db.nextUserId, email := jsToLower email,
                 password_hash := AuthUtils.hashPassword password, nombre := nombre,
                 activo := false, bloqueado := false, intentos_fallidos := 0,
                 fecha_bloqueo := none, fecha_creacion := now } := by
      simp only [UserModel.findByEmail]
      rw [find?_append_none _ _ _ hfindmail]
      simp [List.find?_cons]
    exact login_disabled _ now2 email password ua2 ip2 _ hfind3 rfl

/-- Witness for `register_pending_then_login_disabled`: registration of
`alice@example.com` with `GoodPass1!` on the empty store, all hypotheses
discharged concretely. -/
theorem register_pending_then_login_disabled_witness :
    (AuthUtils.isValidEmail "alice@example.com" = true ∧
     (AuthUtils.validatePassword "GoodPass1!").isValid = true ∧
     (∀ u ∈ emptyDB.usuarios, u.email ≠ jsToLower "alice@example.com") ∧
     (∀ u ∈ emptyDB.usuarios, u.id_usuario ≠ emptyDB.nextUserId) ∧
     (∀ ur ∈ emptyDB.usuario_roles, ur.usuario_id ≠ emptyDB.nextUserId)) ∧
    (∃ res db', AuthService.register emptyDB 0 "alice@example.com" "GoodPass1!"
        none none "ip" = (.ok res, db') ∧
      res.user.activo = false ∧
      (∃ u ∈ db'.usuarios, u.email = jsToLower "alice@example.com" ∧ u.activo = false ∧
        ({ usuario_id := u.id_usuario, rol_id := AuthService.colaboradorRoleId } : UserRole)
          ∈ db'.usuario_roles ∧
        ∃ s ∈ db'.sesiones, s.usuario_id = u.id_usuario ∧ s.activo = true) ∧
      (∀ (db2 : DB) (u2 : Usuario),
        UserModel.findByEmail db2 "alice@example.com" = some u2 → u2.activo = false →
        AuthService.login db2 5 "alice@example.com" "GoodPass1!" none "ip" =
          (.error .ACCOUNT_DISABLED, db2)) ∧
      AuthService.login db' 5 "alice@example.com" "GoodPass1!" none "ip" =
        (.error .ACCOUNT_DISABLED, db')) :=
  ⟨⟨by decide, by decide, by decide, by decide, by decide⟩,
   register_pending_then_login_disabled emptyDB 0 5 "alice@example.com" "GoodPass1!"
     none none none "ip" "ip" (by decide) (by decide) (by decide) (by decide) (by decide)⟩

lemma ShapeStep_refl (db : DB) : ShapeStep db db :=
  ⟨id, [], by simp, fun _ => rfl, fun _ h => h, fun _ => Or.inl rfl, by simp,
    le_refl _, le_refl _⟩

lemma ShapeStep_trans {db db' db'' : DB} (h1 : ShapeStep db db')
    (h2 : ShapeStep db' db'') : ShapeStep db db'' := by
  obtain ⟨f, rows, hses, hfid, hfact, hftok, hrows, hsid, hnt⟩ := h1
  obtain ⟨g, rows2, hses2, hgid, hgact, hgtok, hrows2, hsid2, hnt2⟩ := h2
  refine ⟨g ∘ f, rows.map g ++ rows2, ?_, ?_, ?_, ?_, ?_, le_trans hsid hsid2,
    le_trans hnt hnt2⟩
  · rw [hses2, hses, List.map_append, List.map_map, List.append_assoc]
  · intro s; exact (hgid (f s)).trans (hfid s)
  · intro s h; exact hfact s (hgact (f s) h)
  · intro s
    rcases hgtok (f s) with heq | hge
    · rcases hftok s with heq' | hge'
      · exact Or.inl (heq.trans heq')
      · exact Or.inr (heq ▸ hge')
    · exact Or.inr (le_trans hnt hge)
  · intro r hr
    rcases List.mem_append.mp hr with hm | hm
    · obtain ⟨x, hx, rfl⟩ := List.mem_map.mp hm
      exact ⟨le_of_le_of_eq (hrows x hx).1 (hgid x).symm, by
        rcases hgtok x with heq | hge
        · exact heq ▸ (hrows x hx).2
        · exact le_trans hnt hge⟩
    · exact ⟨le_trans hsid (hrows2 r hm).1, le_trans hnt (hrows2 r hm).2⟩

lemma ShapeStep_of_map (db db' : DB) (f : Sesion → Sesion)
    (hses : db'.sesiones = db.sesiones.map f)
    (hid : ∀ s, (f s).id_sesion = s.id_sesion)
    (hact : ∀ s, (f s).activo = true → s.activo = true)
    (htok : ∀ s, (f s).refresh_token = s.refresh_token ∨ db.nextToken ≤ (f s).refresh_token)
    (hsid : db.nextSessionId ≤ db'.nextSessionId)
    (hnt : db.nextToken ≤ db'.nextToken) : ShapeStep db db' :=
  ⟨f, [], by simp [hses], hid, hact, htok, by simp, hsid, hnt⟩

lemma ShapeStep_invalidateSession (db : DB) (sid : Nat) (uid : Option Nat) :
    ShapeStep db (SessionModel.invalidateSession db sid uid) := by
  refine ShapeStep_of_map db _ _ rfl ?_ ?_ ?_ (le_refl _) (le_refl _)
  · intro s; dsimp only; split <;> rfl
  · intro s; dsimp only; split <;> simp_all
  · intro s; dsimp only; split <;> exact Or.inl rfl

lemma ShapeStep_invalidateAll (db : DB) (uid : Nat) (exc : Option Nat) :
    ShapeStep db (SessionModel.invalidateAllUserSessions db uid exc).2 := by
  refine ShapeStep_of_map db _ _ rfl ?_ ?_ ?_ (le_refl _) (le_refl _)
  · intro s; dsimp only; split <;> rfl
  · intro s; dsimp only; split <;> simp_all
  · intro s; dsimp only; split <;> exact Or.inl rfl

lemma ShapeStep_invalidateByToken (db : DB) (t : Nat) :
    ShapeStep db (SessionModel.invalidateByRefreshToken db t) := by
  refine ShapeStep_of_map db _ _ rfl ?_ ?_ ?_ (le_refl _) (le_refl _)
  · intro s; dsimp only; split <;> rfl
  · intro s; dsimp only; split <;> simp_all
  · intro s; dsimp only; split <;> exact Or.inl rfl

lemma ShapeStep_touch (db : DB) (now t : Nat) :
    ShapeStep db (SessionModel.updateLastActivity db now t).2 := by
  refine ShapeStep_of_map db _ _ rfl ?_ ?_ ?_ (le_refl _) (le_refl _)
  · intro s; dsimp only; split <;> rfl
  · intro s; dsimp only; split <;> simp_all
  · intro s; dsimp only; split <;> exact Or.inl rfl

lemma ShapeStep_cleanExpired (db : DB) (now : Nat) :
    ShapeStep db (SessionModel.cleanExpiredSessions db now).2 := by
  refine ShapeStep_of_map db _ _ rfl ?_ ?_ ?_ (le_refl _) (le_refl _)
  · intro s; dsimp only; split <;> rfl
  · intro s; dsimp only; split <;> simp_all
  · intro s; dsimp only; split <;> exact Or.inl rfl

lemma ShapeStep_create (db : DB) (now userId : Nat) (ua : Option String) (ip : String) :
    ShapeStep db (SessionModel.createSession db now userId ua ip).2 := by
  refine ⟨id, [(SessionModel.createSession db now userId ua ip).1], ?_, fun _ => rfl,
    fun _ h => h, fun _ => Or.inl rfl, ?_, ?_, ?_⟩
  · simp [SessionModel.createSession]
  · intro r hr
    simp only [List.mem_singleton] at hr
    subst hr
    exact ⟨le_refl _, le_refl _⟩
  · exact Nat.le_succ _
  · exact Nat.le_succ _

lemma ShapeStep_renew (db : DB) (now t : Nat) :
    ShapeStep db (match SessionModel.renewSession db now t with
      | .ok p => p.2
      | .error _ => db) := by
  unfold SessionModel.renewSession
  cases hfind : db.sesiones.find? (fun s => s.refresh_token == t && s.activo) with
  | none => exact ShapeStep_refl db
  | some s =>
    refine ShapeStep_of_map db _ _ rfl ?_ ?_ ?_ (le_refl _) (Nat.le_succ _)
    · intro s'; dsimp only; split <;> rfl
    · intro s'; dsimp only; split <;> simp_all
    · intro s'; dsimp only; split
      · exact Or.inr (le_refl _)
      · exact Or.inl rfl

lemma ShapeStep_of_eq_sesiones (db db' : DB) (h : db'.sesiones = db.sesiones)
    (h1 : db.nextSessionId ≤ db'.nextSessionId) (h2 : db.nextToken ≤ db'.nextToken) :
    ShapeStep db db' :=
  ShapeStep_of_map db db' id (by simpa using h) (fun _ => rfl) (fun _ h => h)
    (fun _ => Or.inl rfl) h1 h2

lemma ShapeStep_checkValid (db : DB) (now t : Nat) :
    ShapeStep db (SessionModel.isValidSession db now t).2 := by
  unfold SessionModel.isValidSession
  cases hfind : SessionModel.findByRefreshToken db t with
  | none => exact ShapeStep_refl db
  | some s =>
    dsimp only
    by_cases hexp : now > s.fecha_expiracion
    · rw [if_pos hexp]
      exact ShapeStep_invalidateSession db s.id_sesion none
    · rw [if_neg hexp]
      cases hu : db.usuarios.find? (fun u => u.id_usuario == s.usuario_id) with
      | none => exact ShapeStep_refl db
      | some u =>
        dsimp only
        by_cases hflag : (!u.activo || u.bloqueado) = true
        · rw [if_pos hflag]
          exact ShapeStep_invalidateSession db s.id_sesion none
        · rw [if_neg hflag]
          exact ShapeStep_refl db

lemma ShapeStep_logout (db : DB) (tok : Option Nat) (storeFails : Bool) :
    ShapeStep db (AuthService.logout db tok storeFails).2 := by
  cases tok with
  | none => exact ShapeStep_refl db
  | some t =>
    cases storeFails with
    | true => exact ShapeStep_refl db
    | false => exact ShapeStep_invalidateByToken db t

lemma ShapeStep_login (db : DB) (now : Nat) (email password : String)
    (ua : Option String) (ip : String) :
    ShapeStep db (AuthService.login db now email password ua ip).2 := by
  unfold AuthService.login
  cases hf : UserModel.findByEmail db email with
  | none => exact ShapeStep_refl db
  | some u =>
    dsimp only
    by_cases h1 : (!u.activo) = true
    · rw [if_pos h1]; exact ShapeStep_refl db
    · rw [if_neg h1]
      by_cases h2 : u.bloqueado = true
      · rw [if_pos h2]; exact ShapeStep_refl db
      · rw [if_neg h2]
        by_cases h3 : (!AuthUtils.verifyPassword password u.password_hash) = true
        · rw [if_pos h3]; exact ShapeStep_refl db
        · rw [if_neg h3]
          simp only [SessionModel.createSession]
          split
          · exact ShapeStep_create db now u.id_usuario ua ip
          · exact ShapeStep_create db now u.id_usuario ua ip

lemma ShapeStep_register (db : DB) (now : Nat) (email password : String)
    (nombre ua : Option String) (ip : String) :
    ShapeStep db (AuthService.register db now email password nombre ua ip).2 := by
  unfold AuthService.register
  by_cases h1 : (!AuthUtils.isValidEmail email) = true
  · rw [if_pos h1]; exact ShapeStep_refl db
  · rw [if_neg h1]
    dsimp only
    by_cases h2 : (!(AuthUtils.validatePassword password).isValid) = true
    · rw [if_pos h2]; exact ShapeStep_refl db
    · rw [if_neg h2]
      simp only [UserModel.createUser]
      by_cases h3 : (db.usuarios.any fun u => u.email == jsToLower email) = true
      · rw [if_pos h3]; exact ShapeStep_refl db
      · rw [if_neg h3]
        dsimp only
        simp only [UserModel.assignRole]
        by_cases h4 : (db.usuario_roles.any fun ur =>
            ur.usuario_id == db.nextUserId && ur.rol_id == AuthService.colaboradorRoleId) = true
        · rw [if_pos h4]
          exact ShapeStep_of_eq_sesiones db _ rfl (le_refl _) (le_refl _)
        · rw [if_neg h4]
          simp only [SessionModel.createSession]
          split <;>
            exact ShapeStep_trans
              (ShapeStep_of_eq_sesiones db
                { db with
                    usuarios := db.usuarios ++
                      [{ id_usuario := db.nextUserId, email := jsToLower email,
                         password_hash := AuthUtils.hashPassword password, nombre := nombre,
                         activo := false, bloqueado := false, intentos_fallidos := 0,
                         fecha_bloqueo := none, fecha_creacion := now }]
                    usuario_roles := db.usuario_roles ++
                      [{ usuario_id := db.nextUserId, rol_id := AuthService.colaboradorRoleId }]
                    nextUserId := db.nextUserId + 1 }
                rfl (le_refl _) (le_refl _))
              (ShapeStep_create _ now db.nextUserId ua ip)

lemma ShapeStep_refresh (db : DB) (now t : Nat) :
    ShapeStep db (AuthService.refreshTokens db now t).2 := by
  unfold AuthService.refreshTokens
  cases hf : SessionModel.findByRefreshToken db t with
  | none => exact ShapeStep_refl db
  | some s =>
    dsimp only
    by_cases hv : (!(SessionModel.isValidSession db now t).1) = true
    · rw [if_pos hv]; exact ShapeStep_checkValid db now t
    · rw [if_neg hv]
      cases hr : SessionModel.renewSession (SessionModel.isValidSession db now t).2 now t with
      | error e => exact ShapeStep_checkValid db now t
      | ok p =>
        obtain ⟨ns, db2⟩ := p
        dsimp only
        have hmid : ShapeStep db db2 :=
          ShapeStep_trans (ShapeStep_checkValid db now t)
            (by have hstep := ShapeStep_renew (SessionModel.isValidSession db now t).2 now t
                rw [hr] at hstep
                exact hstep)
        cases hw : UserModel.findWithRoles db2 s.usuario_id with
        | none => exact hmid
        | some q =>
          obtain ⟨uwr, roles⟩ := q
          dsimp only
          exact ShapeStep_trans hmid (ShapeStep_touch db2 now ns.refresh_token)

lemma stepDB_shape (db : DB) (op : SessionOp) : ShapeStep db (stepDB db op) := by
  cases op with
  | create now uid ua ip => exact ShapeStep_create db now uid ua ip
  | invalidateOne sid uid => exact ShapeStep_invalidateSession db sid uid
  | invalidateAll uid exc => exact ShapeStep_invalidateAll db uid exc
  | invalidateByToken t => exact ShapeStep_invalidateByToken db t
  | checkValid now t => exact ShapeStep_checkValid db now t
  | touch now t => exact ShapeStep_touch db now t
  | cleanExpired now => exact ShapeStep_cleanExpired db now
  | renewOp now t => exact ShapeStep_renew db now t
  | refreshOp now t => exact ShapeStep_refresh db now t
  | logoutOp tok f => exact ShapeStep_logout db tok f
  | loginOp now e pw ua ip => exact ShapeStep_login db now e pw ua ip
  | registerOp now e pw nom ua ip => exact ShapeStep_register db now e pw nom ua ip

lemma refreshTokenDead_of_shape {t : Nat} {db db' : DB} (hs : ShapeStep db db')
    (h : refreshTokenDead t db) : refreshTokenDead t db' := by
  obtain ⟨f, rows, hses, hfid, hfact, hftok, hrows, hsid, hnt⟩ := hs
  obtain ⟨hd, hlt⟩ := h
  refine ⟨?_, lt_of_lt_of_le hlt hnt⟩
  intro s hmem htk
  rw [hses] at hmem
  rcases List.mem_append.mp hmem with hm | hm
  · obtain ⟨x, hx, rfl⟩ := List.mem_map.mp hm
    rcases hftok x with heq | hge
    · cases hfx : (f x).activo with
      | false => rfl
      | true =>
        have hxact := hfact x hfx
        have hxtok : x.refresh_token = t := heq ▸ htk
        rw [hd x hx hxtok] at hxact
        cases hxact
    · rw [htk] at hge
      omega
  · have := (hrows s hm).2
    rw [htk] at this
    omega

lemma sessionIdDead_of_shape {sid : Nat} {db db' : DB} (hs : ShapeStep db db')
    (h : sessionIdDead sid db) : sessionIdDead sid db' := by
  obtain ⟨f, rows, hses, hfid, hfact, hftok, hrows, hsid, hnt⟩ := hs
  obtain ⟨hd, hlt⟩ := h
  refine ⟨?_, lt_of_lt_of_le hlt hsid⟩
  intro s hmem hidm
  rw [hses] at hmem
  rcases List.mem_append.mp hmem with hm | hm
  · obtain ⟨x, hx, rfl⟩ := List.mem_map.mp hm
    cases hfx : (f x).activo with
    | false => rfl
    | true =>
      have hxact := hfact x hfx
      have hxid : x.id_sesion = sid := (hfid x) ▸ hidm
      rw [hd x hx hxid] at hxact
      cases hxact
  · have := (hrows s hm).1
    rw [hidm] at this
    omega

lemma refreshTokenDead_foldl (t : Nat) (ops : List SessionOp) (db : DB)
    (h : refreshTokenDead t db) : refreshTokenDead t (ops.foldl stepDB db) := by
  induction ops generalizing db with
  | nil => exact h
  | cons op rest ih =>
    exact ih _ (refreshTokenDead_of_shape (stepDB_shape db op) h)

lemma sessionIdDead_foldl (sid : Nat) (ops : List SessionOp) (db : DB)
    (h : sessionIdDead sid db) : sessionIdDead sid (ops.foldl stepDB db) := by
  induction ops generalizing db with
  | nil => exact h
  | cons op rest ih =>
    exact ih _ (sessionIdDead_of_shape (stepDB_shape db op) h)

lemma findByRefreshToken_of_dead {t : Nat} {db : DB} (h : refreshTokenDead t db) :
    SessionModel.findByRefreshToken db t = none := by
  unfold SessionModel.findByRefreshToken
  rw [List.find?_eq_none]
  intro x hx
  simp only [Bool.and_eq_true, beq_iff_eq, not_and]
  intro hxt
  rw [h.1 x hx hxt]
  simp

lemma refreshTokens_of_dead {t : Nat} {db : DB} (now : Nat) (h : refreshTokenDead t db) :
    AuthService.refreshTokens db now t = (.error .INVALID_REFRESH_TOKEN, db) := by
  simp only [AuthService.refreshTokens, findByRefreshToken_of_dead h]

lemma isValidSession_fst_of_dead {t : Nat} {db : DB} (now : Nat)
    (h : refreshTokenDead t db) : (SessionModel.isValidSession db now t).1 = false := by
  simp only [SessionModel.isValidSession, findByRefreshToken_of_dead h]

/-- C1: a refresh token backing a valid session (active row, not yet expired,
owner active and unlocked, store token-counter invariant) rotates exactly
once: the first `refreshTokens` call succeeds, hands out a different token,
and replaces the stored token and expiry of that session; afterwards the
presented token is permanently dead — every row holding it is inactive and it
can never be reissued — and any subsequent `refreshTokens` call with the
original token, after any sequence of further operations, fails with
INVALID_REFRESH_TOKEN (hence with INVALID_REFRESH_TOKEN or SESSION_EXPIRED),
even though the caller never saw the new token. -/
theorem refreshTokens_rotation_single_use
    (db : DB) (now t : Nat) (s : Sesion) (u : Usuario)
    (hfind : SessionModel.findByRefreshToken db t = some s)
    (hexp : now ≤ s.fecha_expiracion)
    (huser : db.usuarios.find? (fun u' => u'.id_usuario == s.usuario_id) = some u)
    (hact : u.activo = true) (hblo : u.bloqueado = false)
    (htokens : ∀ s' ∈ db.sesiones, s'.refresh_token < db.nextToken) :
    ∃ res db', AuthService.refreshTokens db now t = (.ok res, db') ∧
      res.tokens.refreshToken ≠ t ∧
      (∃ s' ∈ db'.sesiones, s'.id_sesion = s.id_sesion ∧
        s'.refresh_token = res.tokens.refreshToken ∧
        s'.fecha_expiracion = AuthUtils.getExpirationDate now) ∧
      refreshTokenDead t db' ∧
      (∀ (ops : List SessionOp) (now2 : Nat),
        AuthService.refreshTokens (ops.foldl stepDB db') now2 t =
          (.error .INVALID_REFRESH_TOKEN, ops.foldl stepDB db')) := by
  have hfind' : db.sesiones.find? (fun x => x.refresh_token == t && x.activo) = some s := by
    simpa [SessionModel.findByRefreshToken] using hfind
  have hsp := List.find?_some hfind'
  have hsmem := List.mem_of_find?_eq_some hfind'
  simp only [Bool.and_eq_true, beq_iff_eq] at hsp
  have ht : t < db.nextToken := hsp.1 ▸ htokens s hsmem
  have hvalid : SessionModel.isValidSession db now t = (true, db) := by
    simp only [SessionModel.isValidSession, hfind, huser]
    rw [if_neg (Nat.not_lt.mpr hexp), if_neg (by simp [hact, hblo])]
  have hdead2 : refreshTokenDead t
      { db with
          sesiones := db.sesiones.map (fun r =>
            if r.refresh_token == t && r.activo then
              { r with
                  refresh_token := db.nextToken
                  fecha_expiracion := AuthUtils.getExpirationDate now
                  fecha_creacion := now }
            else r)
          nextToken := db.nextToken + 1 } := by
    refine ⟨?_, Nat.lt_succ_of_lt ht⟩
    intro x hxm hxt
    simp only [List.mem_map] at hxm
    obtain ⟨y, hy, rfl⟩ := hxm
    by_cases hcy : (y.refresh_token == t && y.activo) = true
    · rw [if_pos hcy] at hxt ⊢
      exact absurd hxt (by simp; omega)
    · rw [if_neg hcy] at hxt ⊢
      simp only [Bool.and_eq_true, beq_iff_eq, not_and] at hcy
      cases hya : y.activo with
      | false => rfl
      | true => exact absurd hya (by simpa using hcy hxt)
  have hdead3 := refreshTokenDead_of_shape
    (ShapeStep_touch
      { db with
          sesiones := db.sesiones.map (fun r =>
            if r.refresh_token == t && r.activo then
              { r with
                  refresh_token := db.nextToken
                  fecha_expiracion := AuthUtils.getExpirationDate now
                  fecha_creacion := now }
            else r)
          nextToken := db.nextToken + 1 } now db.nextToken) hdead2
  simp only [AuthService.refreshTokens, hfind, hvalid, SessionModel.renewSession, hfind',
    UserModel.findWithRoles, huser, SessionModel.updateLastActivity, Bool.not_true,
    Bool.false_eq_true, if_false]
  refine ⟨_, _, rfl, ?_, ?_, ?_, ?_⟩
  · show db.nextToken ≠ t
    omega
  · refine ⟨_, List.mem_map_of_mem _ (List.mem_map_of_mem _ hsmem), ?_, ?_, ?_⟩ <;>
      simp [hsp.1, hsp.2]
  · exact hdead3
  · intro ops now2
    exact refreshTokens_of_dead now2 (refreshTokenDead_foldl t ops _ hdead3)

/-- Witness for `refreshTokens_rotation_single_use` at the concrete store
`boundaryDB` (one valid session, token 10) at time 500. -/
theorem refreshTokens_rotation_single_use_witness :
    (SessionModel.findByRefreshToken boundaryDB 10 =
        some { id_sesion := 1, usuario_id := 7, refresh_token := 10,
               user_agent := "Chrome", ip := "1.1.1.1", fecha_creacion := 0,
               fecha_expiracion := 1000, activo := true } ∧
     (500 : Nat) ≤ 1000 ∧
     boundaryDB.usuarios.find? (fun u' => u'.id_usuario == 7) = some ownerUser ∧
     ownerUser.activo = true ∧ ownerUser.bloqueado = false ∧
     (∀ s' ∈ boundaryDB.sesiones, s'.refresh_token < boundaryDB.nextToken)) ∧
    (∃ res db', AuthService.refreshTokens boundaryDB 500 10 = (.ok res, db') ∧
      res.tokens.refreshToken ≠ 10 ∧
      (∃ s' ∈ db'.sesiones, s'.id_sesion = 1 ∧
        s'.refresh_token = res.tokens.refreshToken ∧
        s'.fecha_expiracion = AuthUtils.getExpirationDate 500) ∧
      refreshTokenDead 10 db' ∧
      (∀ (ops : List SessionOp) (now2 : Nat),
        AuthService.refreshTokens (ops.foldl stepDB db') now2 10 =
          (.error .INVALID_REFRESH_TOKEN, ops.foldl stepDB db'))) :=
  ⟨⟨by decide, by decide, by decide, by decide, by decide, by decide⟩,
   refreshTokens_rotation_single_use boundaryDB 500 10
     { id_sesion := 1, usuario_id := 7, refresh_token := 10,
       user_agent := "Chrome", ip := "1.1.1.1", fecha_creacion := 0,
       fecha_expiracion := 1000, activo := true } ownerUser
     (by decide) (by decide) (by decide) (by decide) (by decide) (by decide)⟩

/-- C3: session invalidation is monotonic.  For a session of the store whose
rows (by id and by token, which the schema keeps unique) have been set
inactive, after ANY sequence of session-lifecycle operations (creates,
invalidations, renewals, sweeps, refreshes, logins, registrations, logouts):
no row with that session's id is ever active again, `refreshTokens` with its
refresh token fails with INVALID_REFRESH_TOKEN without touching the store,
and the session-validity check returns false — nothing resurrects the
session. -/
theorem session_invalidation_monotonic
    (db : DB) (s0 : Sesion)
    (_hmem : s0 ∈ db.sesiones)
    (hidlt : s0.id_sesion < db.nextSessionId)
    (htoklt : s0.refresh_token < db.nextToken)
    (hiddead : ∀ s ∈ db.sesiones, s.id_sesion = s0.id_sesion → s.activo = false)
    (hdead : ∀ s ∈ db.sesiones, s.refresh_token = s0.refresh_token → s.activo = false) :
    ∀ (ops : List SessionOp) (now : Nat),
      (∀ s ∈ (ops.foldl stepDB db).sesiones, s.id_sesion = s0.id_sesion →
        s.activo = false) ∧
      AuthService.refreshTokens (ops.foldl stepDB db) now s0.refresh_token =
        (.error .INVALID_REFRESH_TOKEN, ops.foldl stepDB db) ∧
      (SessionModel.isValidSession (ops.foldl stepDB db) now s0.refresh_token).1 = false := by
  intro ops now
  have h1 : sessionIdDead s0.id_sesion (ops.foldl stepDB db) :=
    sessionIdDead_foldl _ ops db ⟨hiddead, hidlt⟩
  have h2 : refreshTokenDead s0.refresh_token (ops.foldl stepDB db) :=
    refreshTokenDead_foldl _ ops db ⟨hdead, htoklt⟩
  exact ⟨h1.1, refreshTokens_of_dead now h2, isValidSession_fst_of_dead now h2⟩

/-- Witness for `session_invalidation_monotonic` at the concrete store
`loggedOutDB` (its only session invalidated), exercised with an explicit
operation sequence: the expiry sweep, a fresh login-created session for the
same user, and a direct refresh attempt. -/
theorem session_invalidation_monotonic_witness :
    (({ id_sesion := 1, usuario_id := 7, refresh_token := 10,
        user_agent := "Chrome", ip := "1.1.1.1", fecha_creacion := 0,
        fecha_expiracion := 1000, activo := false } : Sesion) ∈ loggedOutDB.sesiones ∧
     (1 : Nat) < loggedOutDB.nextSessionId ∧
     (10 : Nat) < loggedOutDB.nextToken ∧
     (∀ s ∈ loggedOutDB.sesiones, s.id_sesion = 1 → s.activo = false) ∧
     (∀ s ∈ loggedOutDB.sesiones, s.refresh_token = 10 → s.activo = false)) ∧
    ((∀ s ∈ ([SessionOp.cleanExpired 2000, SessionOp.create 2000 7 none "ip",
          SessionOp.refreshOp 2000 10].foldl stepDB loggedOutDB).sesiones,
        s.id_sesion = 1 → s.activo = false) ∧
      AuthService.refreshTokens ([SessionOp.cleanExpired 2000, SessionOp.create 2000 7 none "ip",
          SessionOp.refreshOp 2000 10].foldl stepDB loggedOutDB) 2000 10 =
        (.error .INVALID_REFRESH_TOKEN,
          [SessionOp.cleanExpired 2000, SessionOp.create 2000 7 none "ip",
            SessionOp.refreshOp 2000 10].foldl stepDB loggedOutDB) ∧
      (SessionModel.isValidSession ([SessionOp.cleanExpired 2000,
          SessionOp.create 2000 7 none "ip",
          SessionOp.refreshOp 2000 10].foldl stepDB loggedOutDB) 2000 10).1 = false) :=
  ⟨⟨by decide, by decide, by decide, by decide, by decide⟩,
   session_invalidation_monotonic loggedOutDB
     { id_sesion := 1, usuario_id := 7, refresh_token := 10,
       user_agent := "Chrome", ip := "1.1.1.1", fecha_creacion := 0,
       fecha_expiracion := 1000, activo := false }
     (by decide) (by decide) (by decide) (by decide) (by decide)
     [SessionOp.cleanExpired 2000, SessionOp.create 2000 7 none "ip",
       SessionOp.refreshOp 2000 10] 2000⟩
